import Mathlib

/-!
Shallow embedding of the queue-polling execution core of the n8n fal.ai node
(`src/nodes/FalAi/FalAi.node.ts`), together with theorems checking the
natural-language specification against it.

Modelling conventions:
* JavaScript JSON values are modelled by the inductive `Json`; numbers are kept
  as exact decimals (mantissa, power-of-ten exponent) rather than IEEE floats.
* JavaScript objects are association lists (`JsonObj`); property assignment
  replaces an existing key in place and otherwise appends, as in JS.
* `undefined`/absent optional fields become `Option`; the JS `||` fallback on
  strings (where the empty string is falsy) is `jsOrString`.
* Time is a `Nat` millisecond counter.  HTTP calls are instantaneous; the
  clock advances only across `sleep(pollInterval)`, so the elapsed time seen
  by the loop's deadline check after k sleeps is `k * pollInterval`.
* The sequence of remote status responses observed by the polling loop is an
  explicit finite trace (`List StatusResponse`).
-/

namespace FalAi

/-- Model of a JSON value (the serializable values flowing through the node).
Numbers are exact decimals: `num m e` denotes `m * 10 ^ e`. -/
inductive Json where
  | null : Json
  | bool (b : Bool) : Json
  | num (mantissa : Int) (exp10 : Int) : Json
  | str (s : String) : Json
  | arr (elems : List Json) : Json
  | obj (fields : List (String × Json)) : Json
deriving Repr

/-- A JS object as an association list of fields, in insertion order. -/
abbrev JsonObj := List (String × Json)

/-- A JSON integer literal. -/
def Json.int (n : Int) : Json := Json.num n 0

/-- First-match lookup in an association list (JS property access and
`Map.prototype.get`; JS objects and maps cannot hold duplicate keys, so the
first match is the only one on lists built by `assocSet`). -/
def assocGet {α : Type} : List (String × α) → String → Option α
  | [], _ => none
  | (k2, v) :: rest, k => if k2 = k then some v else assocGet rest k

/-- Key assignment in an association list: replace the key in place when
present, append otherwise (JS property assignment and `Map.prototype.set`;
lists modelling JS objects and maps are duplicate-free, so replacing the
first match is replacing the only one). -/
def assocSet {α : Type} : List (String × α) → String → α → List (String × α)
  | [], k, v => [(k, v)]
  | (k2, w) :: rest, k, v =>
    if k2 = k then (k, v) :: rest else (k2, w) :: assocSet rest k v

/-- Property lookup on a JS object. -/
def jsonLookup (o : JsonObj) (k : String) : Option Json := assocGet o k

/-- Property assignment on a JS object (spread-then-assign semantics). -/
def jsonSet (o : JsonObj) (k : String) (v : Json) : JsonObj := assocSet o k v

theorem assocGet_assocSet_self {α : Type} (l : List (String × α)) (k : String) (v : α) :
    assocGet (assocSet l k v) k = some v := by
  induction l with
  | nil => simp [assocSet, assocGet]
  | cons p rest ih =>
    by_cases hk : p.1 = k
    · simp [assocSet, assocGet, hk]
    · simp [assocSet, assocGet, hk, ih]

theorem assocGet_assocSet_other {α : Type} (l : List (String × α)) (k k2 : String) (v : α)
    (h : k2 ≠ k) : assocGet (assocSet l k v) k2 = assocGet l k2 := by
  induction l with
  | nil => simp [assocSet, assocGet, Ne.symm h]
  | cons p rest ih =>
    by_cases hk : p.1 = k
    · have hp2 : ¬ p.1 = k2 := fun hh => h (by rw [← hh, hk])
      simp [assocSet, assocGet, hk, Ne.symm h, hp2]
    · by_cases hk2 : p.1 = k2
      · simp [assocSet, assocGet, hk, hk2, h]
      · simp [assocSet, assocGet, hk, hk2, ih]

/-- JS `a || b` on an optional string: the empty string is falsy. -/
def jsOrString (v : Option String) (fallback : String) : String :=
  match v with
  | some s => if s = "" then fallback else s
  | none => fallback

/-- JS `Array.prototype.join` with a separator. -/
def joinSep (sep : String) : List String → String
  | [] => ""
  | [a] => a
  | a :: b :: rest => a ++ sep ++ joinSep sep (b :: rest)

/-- Split a character list at every occurrence of a separator; the result has
one (possibly empty) chunk per gap, as JS `split` does. -/
def splitOnChar (sep : Char) : List Char → List (List Char)
  | [] => [[]]
  | c :: rest =>
    let r := splitOnChar sep rest
    if c = sep then [] :: r
    else
      match r with
      | h :: t => (c :: h) :: t
      | [] => [[c]]

/-- JS `String.prototype.split` with a single-character separator. -/
def jsSplit (sep : Char) (s : String) : List String :=
  (splitOnChar sep s.data).map String.mk

/-- Whitespace removed by JS `String.prototype.trim` (restricted to the ASCII
whitespace characters; the exotic Unicode space code points are not modelled). -/
def isTrimWs (c : Char) : Bool :=
  c = ' ' ∨ c = '\t' ∨ c = '\n' ∨ c = '\r' ∨ c = '\x0b' ∨ c = '\x0c'

/-- JS `String.prototype.trim`. -/
def jsTrim (s : String) : String :=
  String.mk (((s.data.dropWhile isTrimWs).reverse.dropWhile isTrimWs).reverse)

/-- JS `String.prototype.startsWith`. -/
def strStartsWith (s pfx : String) : Bool := pfx.data.isPrefixOf s.data

/-- JS `String.prototype.endsWith`. -/
def strEndsWith (s sfx : String) : Bool := sfx.data.isSuffixOf s.data

theorem strStartsWith_append (a b : String) : strStartsWith (a ++ b) a = true := by
  unfold strStartsWith
  simp [String.data_append]

theorem strEndsWith_append (a b : String) : strEndsWith (a ++ b) b = true := by
  unfold strEndsWith
  simp [String.data_append]

/-- Result of `resolveQueuePaths`. -/
structure QueuePaths where
  baseModelId : String
  submitPath : String
deriving Repr, DecidableEq

/-- Embedding of `resolveQueuePaths` (FalAi.node.ts:248-258): split the model
id on `/`, drop empty segments; with at most two segments both outputs are the
rejoined id, otherwise the base is the first two segments and the submit path
appends the remaining segments to the base. -/
def resolveQueuePaths (modelId : String) : QueuePaths :=
  let parts := (jsSplit '/' modelId).filter (fun s => s ≠ "")
  if parts.length ≤ 2 then
    let normalized := joinSep "/" parts
    ⟨normalized, normalized⟩
  else
    let baseModelId := joinSep "/" (parts.take 2)
    let subpath := joinSep "/" (parts.drop 2)
    ⟨baseModelId, baseModelId ++ "/" ++ subpath⟩

/-- Splitting a model id as the source does: on `/`, dropping empty segments. -/
def modelIdSegments (modelId : String) : List String :=
  (jsSplit '/' modelId).filter (fun s => s ≠ "")

theorem joinSep_append (sep : String) (l1 l2 : List String)
    (h1 : l1 ≠ []) (h2 : l2 ≠ []) :
    joinSep sep (l1 ++ l2) = joinSep sep l1 ++ sep ++ joinSep sep l2 := by
  induction l1 with
  | nil => exact absurd rfl h1
  | cons a t ih =>
    cases t with
    | nil =>
      cases l2 with
      | nil => exact absurd rfl h2
      | cons b t2 => simp [joinSep]
    | cons b t' =>
      have hrec := ih (by simp)
      simp only [List.cons_append, joinSep] at hrec ⊢
      rw [show t'.append l2 = t' ++ l2 from rfl, hrec]
      simp [String.append_assoc]

/-! Queue submission: derived follow-up URLs and the immediate-return record
(FalAi.node.ts:2131-2152 for generate, 2256-2278 for runWorkflow). -/

/-- The submission response from the remote queue (`QueueSubmitResponse`). -/
structure QueueSubmitResponse where
  request_id : String
  status_url : Option String := none
  response_url : Option String := none
  cancel_url : Option String := none
deriving Repr

/-- Derived status URL for a generate request (FalAi.node.ts:2139). -/
def derivedStatusUrl (baseModelId requestId : String) : String :=
  "https://queue.fal.run/" ++ baseModelId ++ "/requests/" ++ requestId ++ "/status"

/-- Derived response URL for a generate request (FalAi.node.ts:2140). -/
def derivedResponseUrl (baseModelId requestId : String) : String :=
  "https://queue.fal.run/" ++ baseModelId ++ "/requests/" ++ requestId

/-- Derived cancel URL for a generate request (FalAi.node.ts:2141). -/
def derivedCancelUrl (baseModelId requestId : String) : String :=
  "https://queue.fal.run/" ++ baseModelId ++ "/requests/" ++ requestId ++ "/cancel"

/-- The record returned by the generate operation when `waitForCompletion` is
off (FalAi.node.ts:2138-2152): field order follows the object literal. -/
def generateImmediateResult (model : String) (input : JsonObj)
    (qr : QueueSubmitResponse) : JsonObj :=
  let baseModelId := (resolveQueuePaths model).baseModelId
  let requestId := qr.request_id
  let statusUrl := jsOrString qr.status_url (derivedStatusUrl baseModelId requestId)
  let responseUrl := jsOrString qr.response_url (derivedResponseUrl baseModelId requestId)
  let cancelUrl := jsOrString qr.cancel_url (derivedCancelUrl baseModelId requestId)
  [("request_id", Json.str requestId),
   ("model", Json.str model),
   ("status", Json.str "QUEUED"),
   ("input", Json.obj input),
   ("status_url", Json.str statusUrl),
   ("response_url", Json.str responseUrl),
   ("cancel_url", Json.str cancelUrl)]

/-! The polling loop (FalAi.node.ts:2153-2201 for generate, 2279-2328 for
runWorkflow). -/

/-- A status response from the queue (`QueueStatusResponse`); only the fields
the loop reads are modelled. -/
structure StatusResponse where
  status : String
  response_url : Option String := none
deriving Repr

/-- Merge performed on `COMPLETED` for generate (FalAi.node.ts:2169-2173):
spread the fetched result payload, then overwrite `request_id` and `model`. -/
def mergeGenerateResult (payload : JsonObj) (requestId model : String) : JsonObj :=
  jsonSet (jsonSet payload "request_id" (Json.str requestId)) "model" (Json.str model)

/-- Merge performed on `COMPLETED` for runWorkflow (FalAi.node.ts:2296-2300):
spread the fetched result payload, then overwrite `request_id` and
`workflow_id`. -/
def mergeWorkflowResult (payload : JsonObj) (requestId workflowId : String) : JsonObj :=
  jsonSet (jsonSet payload "request_id" (Json.str requestId)) "workflow_id" (Json.str workflowId)

/-- Error message raised on `FAILED`/`CANCELLED` during generate polling
(FalAi.node.ts:2180). -/
def generateFailedMessage (status requestId : String) : String :=
  "Generation did not complete successfully (status: " ++ status ++
    "). Request ID: " ++ requestId ++ ". Check the fal.ai dashboard for details."

/-- Error message raised on an unrecognized status during generate polling
(FalAi.node.ts:2188). -/
def generateUnexpectedMessage (status requestId : String) : String :=
  "Unexpected queue status \"" ++ status ++ "\". Request ID: " ++ requestId ++ "."

/-- Timeout message for generate (FalAi.node.ts:2199); the source divides the
millisecond deadline by 1000 (always exact, since it is built as seconds×1000). -/
def generateTimeoutMessage (maxWaitTime : Nat) (requestId : String) : String :=
  "Generation timed out after " ++ toString (maxWaitTime / 1000) ++
    " seconds. Request ID: " ++ requestId ++
    ". Increase \x27Max Wait Time\x27 or disable \x27Wait for Completion\x27 to get the request ID immediately."

/-- Error message raised on `FAILED`/`CANCELLED` during workflow polling
(FalAi.node.ts:2307). -/
def workflowFailedMessage (status requestId : String) : String :=
  "Workflow execution failed (status: " ++ status ++ "). Request ID: " ++
    requestId ++ ". Check the fal.ai dashboard for details."

/-- Error message raised on an unrecognized status during workflow polling
(FalAi.node.ts:2315). -/
def workflowUnexpectedMessage (status requestId : String) : String :=
  "Unexpected workflow status \"" ++ status ++ "\". Request ID: " ++ requestId ++ "."

/-- Timeout message for runWorkflow (FalAi.node.ts:2326). -/
def workflowTimeoutMessage (maxWaitTime : Nat) (requestId : String) : String :=
  "Workflow timed out after " ++ toString (maxWaitTime / 1000) ++
    " seconds. Request ID: " ++ requestId ++
    ". Increase \x27Max Wait Time\x27 or disable \x27Wait for Completion\x27."

/-- Outcome of a polling run.  `success` records the URL the result was
fetched from and the merged output record; the three error constructors carry
the raised message; `outOfResponses` marks that the finite status trace ended
while the loop would have polled again (a model artifact, not a program
state). -/
inductive PollOutcome where
  | success (fetchedFrom : String) (record : JsonObj) : PollOutcome
  | jobError (message : String) : PollOutcome
  | unexpectedStatus (message : String) : PollOutcome
  | timedOut (message : String) : PollOutcome
  | outOfResponses : PollOutcome
deriving Repr

/-- Static configuration of one generate polling run: the client-side values
in scope when the loop starts.  `resultPayload` is the payload returned by the
result GET on completion. -/
structure PollConfig where
  requestId : String
  model : String
  responseUrl : String
  pollInterval : Nat
  maxWaitTime : Nat
  resultPayload : JsonObj
deriving Repr

/-- Embedding of the generate polling loop (FalAi.node.ts:2154-2201), run on a
finite trace of status responses.  `elapsed` is `Date.now() - startTime` at
the top of the `while`; each branch mirrors the source in order: `COMPLETED`
fetches the result (from the status payload's response URL, else the derived
one) and merges it; `FAILED`/`CANCELLED` raises the terminal job error; any
other non-`IN_QUEUE`/`IN_PROGRESS` status raises the unexpected-status error;
otherwise the loop sleeps `pollInterval` and continues.  When the `while`
condition fails the timeout error is raised (the loop having produced no
result).  The second component counts status GETs issued. -/
def pollGenerate (cfg : PollConfig) : Nat → List StatusResponse → PollOutcome × Nat
  | elapsed, statuses =>
    if elapsed < cfg.maxWaitTime then
      match statuses with
      | [] => (PollOutcome.outOfResponses, 0)
      | sr :: rest =>
        if sr.status = "COMPLETED" then
          let resolvedResponseUrl := jsOrString sr.response_url cfg.responseUrl
          (PollOutcome.success resolvedResponseUrl
            (mergeGenerateResult cfg.resultPayload cfg.requestId cfg.model), 1)
        else if sr.status = "FAILED" ∨ sr.status = "CANCELLED" then
          (PollOutcome.jobError (generateFailedMessage sr.status cfg.requestId), 1)
        else if sr.status ≠ "IN_QUEUE" ∧ sr.status ≠ "IN_PROGRESS" then
          (PollOutcome.unexpectedStatus (generateUnexpectedMessage sr.status cfg.requestId), 1)
        else
          let next := pollGenerate cfg (elapsed + cfg.pollInterval) rest
          (next.1, next.2 + 1)
    else
      (PollOutcome.timedOut (generateTimeoutMessage cfg.maxWaitTime cfg.requestId), 0)

/-- Embedding of the runWorkflow polling loop (FalAi.node.ts:2280-2328); it is
the generate loop with workflow messages and the `workflow_id` merge.  The
`model` field of the configuration holds the workflow id. -/
def pollWorkflow (cfg : PollConfig) : Nat → List StatusResponse → PollOutcome × Nat
  | elapsed, statuses =>
    if elapsed < cfg.maxWaitTime then
      match statuses with
      | [] => (PollOutcome.outOfResponses, 0)
      | sr :: rest =>
        if sr.status = "COMPLETED" then
          let resolvedResponseUrl := jsOrString sr.response_url cfg.responseUrl
          (PollOutcome.success resolvedResponseUrl
            (mergeWorkflowResult cfg.resultPayload cfg.requestId cfg.model), 1)
        else if sr.status = "FAILED" ∨ sr.status = "CANCELLED" then
          (PollOutcome.jobError (workflowFailedMessage sr.status cfg.requestId), 1)
        else if sr.status ≠ "IN_QUEUE" ∧ sr.status ≠ "IN_PROGRESS" then
          (PollOutcome.unexpectedStatus (workflowUnexpectedMessage sr.status cfg.requestId), 1)
        else
          let next := pollWorkflow cfg (elapsed + cfg.pollInterval) rest
          (next.1, next.2 + 1)
    else
      (PollOutcome.timedOut (workflowTimeoutMessage cfg.maxWaitTime cfg.requestId), 0)

/-! Execution options (FalAi.node.ts:2127-2128 and 2252-2253): the configured
values are combined with JS `||` against the defaults, then scaled to
milliseconds; `0` (or an absent value) is falsy and silently becomes the
default. -/

/-- JS `v || d` on an optional number where `0` is falsy. -/
def jsOrNat (v : Option Nat) (d : Nat) : Nat :=
  match v with
  | none => d
  | some n => if n = 0 then d else n

/-- `((options.pollInterval as number) || 5) * 1000`. -/
def pollIntervalMs (configured : Option Nat) : Nat :=
  jsOrNat configured 5 * 1000

/-- `((options.maxWaitTime as number) || 600) * 1000`. -/
def maxWaitTimeMs (configured : Option Nat) : Nat :=
  jsOrNat configured 600 * 1000

/-! The model-schema cache (FalAi.node.ts:213-246). -/

/-- A parsed parameter descriptor (`ParsedParameter`); optional constraint
fields are carried as JSON values. -/
structure ParsedParameter where
  name : String
  type : String
  title : Option String := none
  description : Option String := none
  required : Bool
  default : Option Json := none
  enum : Option (List Json) := none
  exampleValue : Option Json := none
  minimum : Option Json := none
  maximum : Option Json := none
  minLength : Option Nat := none
  maxLength : Option Nat := none
deriving Repr

/-- A parsed model descriptor (`ParsedModelInfo`). -/
structure ParsedModelInfo where
  model : String
  displayName : Option String := none
  category : Option String := none
  description : Option String := none
  playgroundUrl : Option String := none
  documentationUrl : Option String := none
  inputParameters : List ParsedParameter := []
  outputParameters : List ParsedParameter := []
deriving Repr

/-- One cache entry: the parsed descriptor plus the time it was stored. -/
structure CacheEntry where
  data : ParsedModelInfo
  timestamp : Nat
deriving Repr

/-- The process-wide `modelSchemaCache` map, as an association list in
insertion order. -/
abbrev SchemaCache := List (String × CacheEntry)

/-- `Map.prototype.get` on the schema cache. -/
def cacheGet (c : SchemaCache) (k : String) : Option CacheEntry := assocGet c k

/-- `Map.prototype.set` on the schema cache. -/
def cacheSet (c : SchemaCache) (k : String) (e : CacheEntry) : SchemaCache :=
  assocSet c k e

/-- `CACHE_TTL = 10 * 60 * 1000` milliseconds (FalAi.node.ts:215). -/
def CACHE_TTL : Nat := 10 * 60 * 1000

/-- Embedding of `getModelSchema` (FalAi.node.ts:217-246).  `now` is
`Date.now()`; `fetchOutcome` is the outcome of the network fetch and schema
parse, with `none` covering both an empty `models` answer and a thrown request
error (the source catches it and returns `null`, leaving the cache untouched).
Returns the result, the cache after the call, and the number of network
fetches issued (0 or 1). -/
def getModelSchema (cache : SchemaCache) (now : Nat) (modelId : String)
    (fetchOutcome : Option ParsedModelInfo) :
    Option ParsedModelInfo × SchemaCache × Nat :=
  let fetchPath : Option ParsedModelInfo × SchemaCache × Nat :=
    match fetchOutcome with
    | none => (none, cache, 1)
    | some info => (some info, cacheSet cache modelId ⟨info, now⟩, 1)
  match cacheGet cache modelId with
  | some cached =>
    if now - cached.timestamp < CACHE_TTL then (some cached.data, cache, 0)
    else fetchPath
  | none => fetchPath

/-! Error normalization (FalAi.node.ts:260-323). -/

/-- The `response` object carried by an HTTP transport failure; absent fields
are `none` (JS `undefined`). -/
structure ErrResponse where
  status : Option Nat := none
  data : Option Json := none
deriving Repr

/-- A thrown failure that is an object; `getHttpErrorDetails` receives
`Option ThrownError`, with `none` standing for a thrown value that is null or
not an object. -/
structure ThrownError where
  message : Option String := none
  response : Option ErrResponse := none
deriving Repr

/-- JS truthiness of a JSON value. -/
def jsTruthy : Json → Bool
  | Json.null => false
  | Json.bool b => b
  | Json.num m _ => m ≠ 0
  | Json.str s => s ≠ ""
  | Json.arr _ => true
  | Json.obj _ => true

/-- One candidate clause `typeof dataObject.k === 'string' && dataObject.k`:
the field must exist, be a string, and be nonempty (JS truthy). -/
def candidateField (fields : JsonObj) (k : String) : Option String :=
  match jsonLookup fields k with
  | some (Json.str s) => if s = "" then none else some s
  | _ => none

/-- The candidate chain of FalAi.node.ts:282-286: `message`, `detail`,
`error`, `title`, first truthy string wins. -/
def firstMessageCandidate (fields : JsonObj) : Option String :=
  (candidateField fields "message").orElse fun _ =>
    (candidateField fields "detail").orElse fun _ =>
      (candidateField fields "error").orElse fun _ =>
        candidateField fields "title"

/-- The structured details extracted from an HTTP failure. -/
structure HttpErrorDetails where
  message : String
  status : Option Nat
  data : Option Json
deriving Repr

/-- Embedding of `getHttpErrorDetails` (FalAi.node.ts:260-294): `none` when
the thrown value is not an object or carries no `response`; otherwise the
message is the string body when the body is a truthy string, the first
truthy candidate field when the body is an object, and the original error's
message (or "Request failed") when the body is absent, falsy, or yields no
candidate.  An array body has `typeof data === 'object'` but no candidate
string fields, so it also falls back to the original message. -/
def getHttpErrorDetails : Option ThrownError → Option HttpErrorDetails
  | none => none
  | some err =>
    match err.response with
    | none => none
    | some resp =>
      let message0 := jsOrString err.message "Request failed"
      let message :=
        match resp.data with
        | none => message0
        | some d =>
          if jsTruthy d then
            match d with
            | Json.str s => s
            | Json.obj fields => (firstMessageCandidate fields).getD message0
            | _ => message0
          else message0
      some ⟨message, resp.status, resp.data⟩

/-- Embedding of `buildApiErrorPayload` (FalAi.node.ts:305-323).  The source's
`toJsonValue` is a JSON round trip; on the already-JSON-safe `Json` values of
this model it is the identity, so the data is attached as is. -/
def buildApiErrorPayload (details : HttpErrorDetails) : JsonObj :=
  let payload : JsonObj := [("message", Json.str details.message)]
  let payload :=
    match details.status with
    | some s => payload ++ [("httpCode", Json.str (toString s)), ("statusCode", Json.int s)]
    | none => payload
  match details.data with
  | some d => payload ++ [("data", d)]
  | none => payload

/-! JSON sniffing of free-form parameter values (FalAi.node.ts:2099-2122 for
generate, 2226-2249 for runWorkflow; the two blocks are identical).  A value
is passed to `JSON.parse` when it looks like an object, array, boolean
literal, or numeric literal; a parse failure keeps the original string.  The
platform pieces are modelled here: `isNumericString` embeds
`!isNaN(Number(s))` over the ECMAScript string-numeric-literal grammar, and
`jsonParse` embeds `JSON.parse` (numbers as exact decimals; a lone `\u`
escape is mapped through `Char.ofNat`, which collapses unpaired surrogates). -/

/-- Hexadecimal digit test. -/
def isHexDigitChar (c : Char) : Bool :=
  c.isDigit ∨ ('a' ≤ c ∧ c ≤ 'f') ∨ ('A' ≤ c ∧ c ≤ 'F')

/-- Octal digit test. -/
def isOctalDigitChar (c : Char) : Bool := '0' ≤ c ∧ c ≤ '7'

/-- Binary digit test. -/
def isBinaryDigitChar (c : Char) : Bool := c = '0' ∨ c = '1'

/-- Validity of a trailing ECMAScript exponent part (empty, or `e`/`E`, an
optional sign, and at least one digit consuming the whole remainder). -/
def expTailOk : List Char → Bool
  | [] => true
  | c :: rest =>
    if c = 'e' ∨ c = 'E' then
      let rest2 :=
        match rest with
        | c2 :: r2 => if c2 = '+' ∨ c2 = '-' then r2 else c2 :: r2
        | [] => []
      rest2 ≠ [] && rest2.all Char.isDigit
    else false

/-- Validity of an unsigned ECMAScript decimal literal (digits with optional
fraction, or a fraction alone, with an optional exponent). -/
def decimalBodyOk (cs : List Char) : Bool :=
  let p := cs.span Char.isDigit
  match p.2 with
  | '.' :: rest2 =>
    let q := rest2.span Char.isDigit
    (p.1 ≠ [] ∨ q.1 ≠ []) && expTailOk q.2
  | _ => p.1 ≠ [] && expTailOk p.2

/-- Validity of an optionally signed decimal literal or `Infinity`. -/
def signedDecimalOk (cs : List Char) : Bool :=
  let cs2 :=
    match cs with
    | c :: rest => if c = '+' ∨ c = '-' then rest else c :: rest
    | [] => []
  cs2 = "Infinity".data ∨ decimalBodyOk cs2

/-- Embedding of `!isNaN(Number(s))` for an already-trimmed string: the empty
string converts to `0`; `0x`/`0o`/`0b` radix literals (unsigned) and signed
decimal literals or infinities convert to numbers; everything else is NaN. -/
def isNumericString (s : String) : Bool :=
  match s.data with
  | [] => true
  | '0' :: x :: rest =>
    if x = 'x' ∨ x = 'X' then rest ≠ [] && rest.all isHexDigitChar
    else if x = 'o' ∨ x = 'O' then rest ≠ [] && rest.all isOctalDigitChar
    else if x = 'b' ∨ x = 'B' then rest ≠ [] && rest.all isBinaryDigitChar
    else signedDecimalOk ('0' :: x :: rest)
  | cs => signedDecimalOk cs

/-- JSON insignificant whitespace. -/
def isJsonWs (c : Char) : Bool :=
  c = ' ' ∨ c = '\t' ∨ c = '\n' ∨ c = '\r'

/-- Drop leading JSON whitespace. -/
def skipWs (cs : List Char) : List Char := cs.dropWhile isJsonWs

/-- Hexadecimal digit value. -/
def hexVal (c : Char) : Option Nat :=
  if c.isDigit then some (c.toNat - '0'.toNat)
  else if 'a' ≤ c ∧ c ≤ 'f' then some (c.toNat - 'a'.toNat + 10)
  else if 'A' ≤ c ∧ c ≤ 'F' then some (c.toNat - 'A'.toNat + 10)
  else none

/-- Strip an expected literal from the front of the input. -/
def stripLit : List Char → List Char → Option (List Char)
  | [], cs => some cs
  | l :: ls, c :: cs => if c = l then stripLit ls cs else none
  | _ :: _, [] => none

/-- Parse the body of a JSON string (after the opening quote), returning the
decoded characters and the remainder after the closing quote. -/
def parseStringChars : Nat → List Char → Option (List Char × List Char)
  | 0, _ => none
  | _ + 1, [] => none
  | fuel + 1, c :: rest =>
    if c = '"' then some ([], rest)
    else if c = '\\' then
      match rest with
      | [] => none
      | e :: rest2 =>
        let decoded : Option (Char × List Char) :=
          if e = '"' then some ('"', rest2)
          else if e = '\\' then some ('\\', rest2)
          else if e = '/' then some ('/', rest2)
          else if e = 'b' then some (Char.ofNat 8, rest2)
          else if e = 'f' then some (Char.ofNat 12, rest2)
          else if e = 'n' then some ('\n', rest2)
          else if e = 'r' then some ('\r', rest2)
          else if e = 't' then some ('\t', rest2)
          else if e = 'u' then
            match rest2 with
            | h1 :: h2 :: h3 :: h4 :: rest3 =>
              match hexVal h1, hexVal h2, hexVal h3, hexVal h4 with
              | some a, some b, some c2, some d =>
                some (Char.ofNat (((a * 16 + b) * 16 + c2) * 16 + d), rest3)
              | _, _, _, _ => none
            | _ => none
          else none
        match decoded with
        | some (ch, rem) =>
          match parseStringChars fuel rem with
          | some (cs2, r) => some (ch :: cs2, r)
          | none => none
        | none => none
    else if c.toNat < 32 then none
    else
      match parseStringChars fuel rest with
      | some (cs2, r) => some (c :: cs2, r)
      | none => none

/-- Accumulate a digit list into a natural number. -/
def digitsToNat (ds : List Char) : Nat :=
  ds.foldl (fun a c => a * 10 + (c.toNat - '0'.toNat)) 0

/-- Parse a JSON number (strict JSON grammar: optional minus, no leading
zeros, fraction and exponent each requiring at least one digit), as an exact
decimal. -/
def parseJsonNumber (cs : List Char) : Option (Json × List Char) :=
  let signed : Bool × List Char :=
    match cs with
    | '-' :: r => (true, r)
    | _ => (false, cs)
  let intPart : Option (List Char × List Char) :=
    match signed.2 with
    | '0' :: r => some (['0'], r)
    | c :: r => if c.isDigit then some ((c :: r).span Char.isDigit) else none
    | [] => none
  match intPart with
  | none => none
  | some (ds, rest1) =>
    let frac : Option (List Char × List Char) :=
      match rest1 with
      | '.' :: r2 =>
        let q := r2.span Char.isDigit
        if q.1 = [] then none else some q
      | _ => some ([], rest1)
    match frac with
    | none => none
    | some (fds, rest2) =>
      let expPart : Option (Int × List Char) :=
        match rest2 with
        | c :: r3 =>
          if c = 'e' ∨ c = 'E' then
            let signedExp : Bool × List Char :=
              match r3 with
              | '-' :: r4 => (true, r4)
              | '+' :: r4 => (false, r4)
              | _ => (false, r3)
            let q := signedExp.2.span Char.isDigit
            if q.1 = [] then none
            else
              let ev : Int := Int.ofNat (digitsToNat q.1)
              some (if signedExp.1 then -ev else ev, q.2)
          else some (0, rest2)
        | [] => some (0, rest2)
      match expPart with
      | none => none
      | some (e, rest3) =>
        let mantissa : Int := Int.ofNat (digitsToNat (ds ++ fds))
        let mantissa := if signed.1 then -mantissa else mantissa
        some (Json.num mantissa (e - Int.ofNat fds.length), rest3)

mutual

/-- Parse one JSON value, returning it and the remaining input. -/
def parseJsonValue : Nat → List Char → Option (Json × List Char)
  | 0, _ => none
  | fuel + 1, input =>
    match skipWs input with
    | [] => none
    | c :: rest =>
      if c = 'n' then
        match stripLit "ull".data rest with
        | some r => some (Json.null, r)
        | none => none
      else if c = 't' then
        match stripLit "rue".data rest with
        | some r => some (Json.bool true, r)
        | none => none
      else if c = 'f' then
        match stripLit "alse".data rest with
        | some r => some (Json.bool false, r)
        | none => none
      else if c = '"' then
        match parseStringChars (rest.length + 1) rest with
        | some (cs2, r) => some (Json.str (String.mk cs2), r)
        | none => none
      else if c = '\x7b' then
        match skipWs rest with
        | '\x7d' :: r2 => some (Json.obj [], r2)
        | r2 =>
          match parseJsonMembers fuel r2 with
          | some (fields, r3) => some (Json.obj fields, r3)
          | none => none
      else if c = '[' then
        match skipWs rest with
        | ']' :: r2 => some (Json.arr [], r2)
        | r2 =>
          match parseJsonElems fuel r2 with
          | some (elems, r3) => some (Json.arr elems, r3)
          | none => none
      else
        parseJsonNumber (c :: rest)

/-- Parse a comma-separated, `]`-terminated list of at least one value. -/
def parseJsonElems : Nat → List Char → Option (List Json × List Char)
  | 0, _ => none
  | fuel + 1, input =>
    match parseJsonValue fuel input with
    | none => none
    | some (v, rest) =>
      match skipWs rest with
      | ',' :: r2 =>
        match parseJsonElems fuel r2 with
        | some (vs, r3) => some (v :: vs, r3)
        | none => none
      | ']' :: r2 => some ([v], r2)
      | _ => none

/-- Parse a comma-separated, closing-brace-terminated list of at least one
`"key": value` member. -/
def parseJsonMembers : Nat → List Char → Option (List (String × Json) × List Char)
  | 0, _ => none
  | fuel + 1, input =>
    match skipWs input with
    | '"' :: rest =>
      match parseStringChars (rest.length + 1) rest with
      | none => none
      | some (kcs, r1) =>
        match skipWs r1 with
        | ':' :: r2 =>
          match parseJsonValue fuel r2 with
          | none => none
          | some (v, r3) =>
            match skipWs r3 with
            | ',' :: r4 =>
              match parseJsonMembers fuel r4 with
              | some (fields, r5) => some ((String.mk kcs, v) :: fields, r5)
              | none => none
            | '\x7d' :: r4 => some ([(String.mk kcs, v)], r4)
            | _ => none
        | _ => none
    | _ => none

end

/-- Embedding of `JSON.parse`: parse one value and require only whitespace to
remain. -/
def jsonParse (s : String) : Option Json :=
  match parseJsonValue (2 * s.data.length + 8) s.data with
  | some (v, rest) => if skipWs rest = [] then some v else none
  | none => none

/-- The sniff condition of FalAi.node.ts:2107-2113: the trimmed value looks
like an object, an array, a boolean literal, or a numeric literal. -/
def looksLikeJson (trimmed : String) : Bool :=
  (strStartsWith trimmed "\x7b" && strEndsWith trimmed "\x7d") ||
  (strStartsWith trimmed "[" && strEndsWith trimmed "]") ||
  trimmed = "true" || trimmed = "false" || isNumericString trimmed

/-- Embedding of the per-parameter value handling (FalAi.node.ts:2102-2118 and
2229-2245): start from the raw string, parse the trimmed value as JSON when it
looks like JSON, and keep the raw string when the sniff fails or `JSON.parse`
throws. -/
def parseParamValue (value : String) : Json :=
  let trimmed := jsTrim value
  if looksLikeJson trimmed then
    match jsonParse trimmed with
    | some v => v
    | none => Json.str value
  else Json.str value

/-! Theorems about the polling loop. -/

theorem pollGenerate_nonterminal_step (cfg : PollConfig) (elapsed : Nat)
    (s : StatusResponse) (rest : List StatusResponse)
    (h : elapsed < cfg.maxWaitTime)
    (hs : s.status = "IN_QUEUE" ∨ s.status = "IN_PROGRESS") :
    pollGenerate cfg elapsed (s :: rest) =
      ((pollGenerate cfg (elapsed + cfg.pollInterval) rest).1,
       (pollGenerate cfg (elapsed + cfg.pollInterval) rest).2 + 1) := by
  rw [pollGenerate]
  rcases hs with hs | hs <;> simp [h, hs]

theorem pollGenerate_skip_nonterminal (cfg : PollConfig) (pre rest : List StatusResponse)
    (elapsed : Nat)
    (hpre : ∀ s ∈ pre, s.status = "IN_QUEUE" ∨ s.status = "IN_PROGRESS")
    (hdl : elapsed + pre.length * cfg.pollInterval < cfg.maxWaitTime) :
    pollGenerate cfg elapsed (pre ++ rest) =
      ((pollGenerate cfg (elapsed + pre.length * cfg.pollInterval) rest).1,
       (pollGenerate cfg (elapsed + pre.length * cfg.pollInterval) rest).2 + pre.length) := by
  induction pre generalizing elapsed with
  | nil => simp
  | cons s pre ih =>
    have hmem : s.status = "IN_QUEUE" ∨ s.status = "IN_PROGRESS" :=
      hpre s (List.mem_cons_self s pre)
    have hpre2 : ∀ t ∈ pre, t.status = "IN_QUEUE" ∨ t.status = "IN_PROGRESS" :=
      fun t ht => hpre t (List.mem_cons_of_mem s ht)
    have harg : elapsed + (s :: pre).length * cfg.pollInterval =
        elapsed + cfg.pollInterval + pre.length * cfg.pollInterval := by
      simp only [List.length_cons]
      ring
    have hlt : elapsed < cfg.maxWaitTime :=
      lt_of_le_of_lt (Nat.le_add_right _ _) hdl
    have hdl2 : elapsed + cfg.pollInterval + pre.length * cfg.pollInterval <
        cfg.maxWaitTime := by
      rw [← harg]
      exact hdl
    rw [List.cons_append,
      pollGenerate_nonterminal_step cfg elapsed s (pre ++ rest) hlt hmem,
      ih (elapsed + cfg.pollInterval) hpre2 hdl2, harg]
    simp [Nat.add_assoc]

theorem pollGenerate_timeout_of_nonterminal (cfg : PollConfig)
    (statuses : List StatusResponse) : ∀ elapsed : Nat,
    (∀ s ∈ statuses, s.status = "IN_QUEUE" ∨ s.status = "IN_PROGRESS") →
    cfg.maxWaitTime ≤ elapsed + statuses.length * cfg.pollInterval →
    (pollGenerate cfg elapsed statuses).1 =
      PollOutcome.timedOut (generateTimeoutMessage cfg.maxWaitTime cfg.requestId) := by
  induction statuses with
  | nil =>
    intro elapsed _ hle
    simp only [List.length_nil, Nat.zero_mul, Nat.add_zero] at hle
    rw [pollGenerate]
    rw [if_neg (by omega)]
  | cons s rest ih =>
    intro elapsed hnt hle
    by_cases h : elapsed < cfg.maxWaitTime
    · rw [pollGenerate_nonterminal_step cfg elapsed s rest h
        (hnt s (List.mem_cons_self s rest))]
      refine ih (elapsed + cfg.pollInterval) (fun t ht => hnt t (List.mem_cons_of_mem s ht)) ?_
      rw [List.length_cons, Nat.succ_mul] at hle
      linarith
    · rw [pollGenerate]
      rw [if_neg h]

/-- C1: in wait-for-completion mode, a generate polling run whose status
trace is zero or more IN_QUEUE/IN_PROGRESS responses followed by COMPLETED,
all before the deadline, fetches the result from the response URL supplied in
the status payload (falling back to the originally derived response URL when
absent) and returns the result payload merged with the client-side request id
and model, after exactly one status poll per status response. -/
theorem pollGenerate_completed_spec (cfg : PollConfig) (pre : List StatusResponse)
    (sr : StatusResponse) (rest : List StatusResponse)
    (hpre : ∀ s ∈ pre, s.status = "IN_QUEUE" ∨ s.status = "IN_PROGRESS")
    (hc : sr.status = "COMPLETED")
    (hdl : pre.length * cfg.pollInterval < cfg.maxWaitTime) :
    pollGenerate cfg 0 (pre ++ sr :: rest) =
      (PollOutcome.success (jsOrString sr.response_url cfg.responseUrl)
        (mergeGenerateResult cfg.resultPayload cfg.requestId cfg.model),
       pre.length + 1) := by
  have hdl0 : 0 + pre.length * cfg.pollInterval < cfg.maxWaitTime := by omega
  rw [pollGenerate_skip_nonterminal cfg pre (sr :: rest) 0 hpre hdl0]
  have hlt : 0 + pre.length * cfg.pollInterval < cfg.maxWaitTime := hdl0
  rw [pollGenerate]
  simp [hdl, hc, Nat.add_comm]

/-- C1 witness: the status sequence IN_QUEUE, IN_PROGRESS, COMPLETED with
result payload `output: x` returns the payload merged with the client request
id and model, fetched from the derived response URL, after three polls. -/
theorem pollGenerate_completed_witness :
    pollGenerate
      ⟨"req-1", "fal-ai/flux", "https://queue.fal.run/fal-ai/flux/requests/req-1",
        5000, 600000, [("output", Json.str "x")]⟩ 0
      [⟨"IN_QUEUE", none⟩, ⟨"IN_PROGRESS", none⟩, ⟨"COMPLETED", none⟩] =
      (PollOutcome.success "https://queue.fal.run/fal-ai/flux/requests/req-1"
        [("output", Json.str "x"), ("request_id", Json.str "req-1"),
         ("model", Json.str "fal-ai/flux")], 3) := by
  have h := pollGenerate_completed_spec
    ⟨"req-1", "fal-ai/flux", "https://queue.fal.run/fal-ai/flux/requests/req-1",
      5000, 600000, [("output", Json.str "x")]⟩
    [⟨"IN_QUEUE", none⟩, ⟨"IN_PROGRESS", none⟩] ⟨"COMPLETED", none⟩ []
    (by
      intro s hs
      rcases List.mem_cons.mp hs with h | h
      · subst h; left; rfl
      · rw [List.mem_singleton] at h; subst h; right; rfl)
    rfl (by norm_num)
  exact h

/-- C2: during generate polling in wait mode, a status other than COMPLETED,
IN_QUEUE or IN_PROGRESS stops the loop after the poll that returned it (the
poll count does not depend on the rest of the trace): FAILED or CANCELLED
raises the terminal job error and any other unrecognized value raises the
unexpected-status error, and both messages carry the request id and the
status. -/
theorem pollGenerate_terminal_error_spec (cfg : PollConfig)
    (pre : List StatusResponse) (sr : StatusResponse) (rest : List StatusResponse)
    (hpre : ∀ s ∈ pre, s.status = "IN_QUEUE" ∨ s.status = "IN_PROGRESS")
    (hnc : sr.status ≠ "COMPLETED") (hnq : sr.status ≠ "IN_QUEUE")
    (hnp : sr.status ≠ "IN_PROGRESS")
    (hdl : pre.length * cfg.pollInterval < cfg.maxWaitTime) :
    (pollGenerate cfg 0 (pre ++ sr :: rest)).2 = pre.length + 1 ∧
    ((sr.status = "FAILED" ∨ sr.status = "CANCELLED") →
      (pollGenerate cfg 0 (pre ++ sr :: rest)).1 =
        PollOutcome.jobError (generateFailedMessage sr.status cfg.requestId)) ∧
    (sr.status ≠ "FAILED" → sr.status ≠ "CANCELLED" →
      (pollGenerate cfg 0 (pre ++ sr :: rest)).1 =
        PollOutcome.unexpectedStatus (generateUnexpectedMessage sr.status cfg.requestId)) ∧
    (∃ a b, generateFailedMessage sr.status cfg.requestId = a ++ (cfg.requestId ++ b)) ∧
    (∃ a b, generateFailedMessage sr.status cfg.requestId = a ++ (sr.status ++ b)) ∧
    (∃ a b, generateUnexpectedMessage sr.status cfg.requestId = a ++ (cfg.requestId ++ b)) ∧
    (∃ a b, generateUnexpectedMessage sr.status cfg.requestId = a ++ (sr.status ++ b)) := by
  have hdl0 : 0 + pre.length * cfg.pollInterval < cfg.maxWaitTime := by omega
  rw [pollGenerate_skip_nonterminal cfg pre (sr :: rest) 0 hpre hdl0]
  rw [pollGenerate]
  refine ⟨?_, ?_, ?_, ?_, ?_, ?_, ?_⟩
  · by_cases hf : sr.status = "FAILED" ∨ sr.status = "CANCELLED" <;>
      simp [hdl, hdl0, hnc, hnq, hnp, hf, Nat.add_comm]
  · intro hf
    simp [hdl, hdl0, hnc, hf]
  · intro hf1 hf2
    simp [hdl, hdl0, hnc, hnq, hnp, hf1, hf2]
  · exact ⟨"Generation did not complete successfully (status: " ++ sr.status ++
      "). Request ID: ", ". Check the fal.ai dashboard for details.",
      by simp [generateFailedMessage, String.append_assoc]⟩
  · exact ⟨"Generation did not complete successfully (status: ",
      "). Request ID: " ++ cfg.requestId ++ ". Check the fal.ai dashboard for details.",
      by simp [generateFailedMessage, String.append_assoc]⟩
  · exact ⟨"Unexpected queue status \"" ++ sr.status ++ "\". Request ID: ", ".",
      by simp [generateUnexpectedMessage, String.append_assoc]⟩
  · exact ⟨"Unexpected queue status \"", "\". Request ID: " ++ cfg.requestId ++ ".",
      by simp [generateUnexpectedMessage, String.append_assoc]⟩

/-- C2 witness: a first status of FAILED raises the terminal job error
carrying the request id, after exactly one status poll. -/
theorem pollGenerate_terminal_error_witness :
    (pollGenerate ⟨"req-2", "fal-ai/flux", "u", 5000, 600000, []⟩ 0
        [⟨"FAILED", none⟩, ⟨"IN_QUEUE", none⟩]).2 = 1 ∧
    (pollGenerate ⟨"req-2", "fal-ai/flux", "u", 5000, 600000, []⟩ 0
        [⟨"FAILED", none⟩, ⟨"IN_QUEUE", none⟩]).1 =
      PollOutcome.jobError
        (generateFailedMessage "FAILED" "req-2") := by
  have h := pollGenerate_terminal_error_spec
    ⟨"req-2", "fal-ai/flux", "u", 5000, 600000, []⟩ [] ⟨"FAILED", none⟩
    [⟨"IN_QUEUE", none⟩] (by intro s hs; simp at hs)
    (by simp) (by simp) (by simp) (by norm_num)
  exact ⟨h.1, h.2.1 (Or.inl rfl)⟩

/-- C3: a generate polling run in wait mode whose status responses stay
IN_QUEUE or IN_PROGRESS, observed on a trace long enough to cover the
deadline, exits the loop once the elapsed time reaches the maximum wait time
and raises the timeout error, which carries the request id. -/
theorem pollGenerate_timeout_spec (cfg : PollConfig)
    (statuses : List StatusResponse)
    (hnt : ∀ s ∈ statuses, s.status = "IN_QUEUE" ∨ s.status = "IN_PROGRESS")
    (hcover : cfg.maxWaitTime ≤ statuses.length * cfg.pollInterval) :
    (pollGenerate cfg 0 statuses).1 =
      PollOutcome.timedOut (generateTimeoutMessage cfg.maxWaitTime cfg.requestId) ∧
    (∃ a b, generateTimeoutMessage cfg.maxWaitTime cfg.requestId =
      a ++ (cfg.requestId ++ b)) := by
  constructor
  · exact pollGenerate_timeout_of_nonterminal cfg statuses 0 hnt (by omega)
  · exact ⟨"Generation timed out after " ++ toString (cfg.maxWaitTime / 1000) ++
      " seconds. Request ID: ",
      ". Increase \x27Max Wait Time\x27 or disable \x27Wait for Completion\x27 to get the request ID immediately.",
      by simp [generateTimeoutMessage, String.append_assoc]⟩

/-- C3 witness: with a maximum wait of 1 second and a poll interval of 2
seconds, a single IN_QUEUE response is enough to reach the timeout error
referencing the request id, after exactly one status poll. -/
theorem pollGenerate_timeout_witness :
    (pollGenerate ⟨"req-3", "fal-ai/flux", "u", 2000, 1000, []⟩ 0
        [⟨"IN_QUEUE", none⟩]).1 =
      PollOutcome.timedOut (generateTimeoutMessage 1000 "req-3") ∧
    (pollGenerate ⟨"req-3", "fal-ai/flux", "u", 2000, 1000, []⟩ 0
        [⟨"IN_QUEUE", none⟩]).2 = 1 := by
  have h := pollGenerate_timeout_spec ⟨"req-3", "fal-ai/flux", "u", 2000, 1000, []⟩
    [⟨"IN_QUEUE", none⟩]
    (by intro s hs; simp at hs; simp [hs]) (by norm_num)
  exact ⟨h.1, rfl⟩

/-- C4: splitting a model id on slashes and dropping empty segments, at most
two segments give identical normalized base and submit paths, while more than
two give a two-segment base and a submit path that prefixes the base and
rejoins exactly the original non-empty segments. -/
theorem resolveQueuePaths_spec (modelId : String) :
    ((modelIdSegments modelId).length ≤ 2 →
      (resolveQueuePaths modelId).baseModelId = joinSep "/" (modelIdSegments modelId) ∧
      (resolveQueuePaths modelId).submitPath = joinSep "/" (modelIdSegments modelId)) ∧
    (2 < (modelIdSegments modelId).length →
      (resolveQueuePaths modelId).baseModelId =
        joinSep "/" ((modelIdSegments modelId).take 2) ∧
      (resolveQueuePaths modelId).submitPath =
        (resolveQueuePaths modelId).baseModelId ++ "/" ++
          joinSep "/" ((modelIdSegments modelId).drop 2) ∧
      strStartsWith (resolveQueuePaths modelId).submitPath
        ((resolveQueuePaths modelId).baseModelId ++ "/") = true ∧
      (resolveQueuePaths modelId).submitPath = joinSep "/" (modelIdSegments modelId)) := by
  constructor
  · intro h
    simp only [modelIdSegments] at h
    simp only [resolveQueuePaths, modelIdSegments]
    rw [if_pos h]
    exact ⟨rfl, rfl⟩
  · intro h
    simp only [modelIdSegments] at h
    have h2 : ¬ ((jsSplit '/' modelId).filter (fun s => s ≠ "")).length ≤ 2 := by omega
    simp only [resolveQueuePaths, modelIdSegments]
    rw [if_neg h2]
    have htake : (((jsSplit '/' modelId).filter (fun s => s ≠ "")).take 2) ≠ [] := by
      have hlen : (((jsSplit '/' modelId).filter (fun s => s ≠ "")).take 2).length = 2 := by
        rw [List.length_take]
        exact Nat.min_eq_left (by omega)
      intro hh
      rw [hh] at hlen
      simp at hlen
    have hdrop : (((jsSplit '/' modelId).filter (fun s => s ≠ "")).drop 2) ≠ [] := by
      intro hh
      have hlen := congrArg List.length hh
      rw [List.length_drop] at hlen
      simp only [List.length_nil] at hlen
      omega
    refine ⟨rfl, rfl, ?_, ?_⟩
    · exact strStartsWith_append _ _
    · rw [show joinSep "/" (((jsSplit '/' modelId).filter (fun s => s ≠ "")).take 2) ++ "/" ++
          joinSep "/" (((jsSplit '/' modelId).filter (fun s => s ≠ "")).drop 2) =
          joinSep "/" ((((jsSplit '/' modelId).filter (fun s => s ≠ "")).take 2) ++
            (((jsSplit '/' modelId).filter (fun s => s ≠ "")).drop 2)) from
          (joinSep_append "/" _ _ htake hdrop).symm]
      rw [List.take_append_drop]

/-- C4 witness: a two-segment id is returned unchanged for both outputs, and
for the three-segment id fal-ai/flux/dev the submit path rejoins all segments
and starts with the base plus a slash. -/
theorem resolveQueuePaths_witness :
    (resolveQueuePaths "fal-ai/flux").baseModelId = "fal-ai/flux" ∧
    (resolveQueuePaths "fal-ai/flux").submitPath = "fal-ai/flux" ∧
    (resolveQueuePaths "fal-ai/flux/dev").baseModelId = "fal-ai/flux" ∧
    (resolveQueuePaths "fal-ai/flux/dev").submitPath = "fal-ai/flux/dev" ∧
    strStartsWith (resolveQueuePaths "fal-ai/flux/dev").submitPath
      ((resolveQueuePaths "fal-ai/flux/dev").baseModelId ++ "/") = true := by
  have h1 := (resolveQueuePaths_spec "fal-ai/flux").1 (by decide)
  have h2 := (resolveQueuePaths_spec "fal-ai/flux/dev").2 (by decide)
  refine ⟨h1.1.trans (by decide), h1.2.trans (by decide),
    h2.1.trans (by decide), (h2.2.2.2).trans (by decide), h2.2.2.1⟩

/-- C5 counterexample: for model id fal-ai/flux/dev with the submission
response omitting explicit URLs, the derived status URL is anchored at the
two-segment base fal-ai/flux, so it does not end in
"/flux/dev/requests/req123/status" as the claim states. -/
theorem generateImmediate_counterexample :
    jsonLookup
      (generateImmediateResult "fal-ai/flux/dev" [("prompt", Json.str "a cat")]
        ⟨"req123", none, none, none⟩) "status_url" =
      some (Json.str "https://queue.fal.run/fal-ai/flux/requests/req123/status") ∧
    strEndsWith "https://queue.fal.run/fal-ai/flux/requests/req123/status"
      "/flux/dev/requests/req123/status" = false :=
  ⟨rfl, rfl⟩

/-- C5 (amended): for the generate operation with model id fal-ai/flux/dev
and wait-for-completion disabled, when the submission response omits explicit
URLs the returned record has status QUEUED, model fal-ai/flux/dev, the
submitted input, the request id, and a derived status URL ending in
"/flux/requests/&lt;request_id&gt;/status" — status, response and cancel URLs
are anchored at the two-segment base fal-ai/flux (the "/dev" subpath appears
only in the submit path, not in the follow-up URLs). -/
theorem generateImmediate_spec (requestId : String) (input : JsonObj) :
    jsonLookup (generateImmediateResult "fal-ai/flux/dev" input
        ⟨requestId, none, none, none⟩) "status" = some (Json.str "QUEUED") ∧
    jsonLookup (generateImmediateResult "fal-ai/flux/dev" input
        ⟨requestId, none, none, none⟩) "model" = some (Json.str "fal-ai/flux/dev") ∧
    jsonLookup (generateImmediateResult "fal-ai/flux/dev" input
        ⟨requestId, none, none, none⟩) "input" = some (Json.obj input) ∧
    jsonLookup (generateImmediateResult "fal-ai/flux/dev" input
        ⟨requestId, none, none, none⟩) "request_id" = some (Json.str requestId) ∧
    jsonLookup (generateImmediateResult "fal-ai/flux/dev" input
        ⟨requestId, none, none, none⟩) "status_url" =
      some (Json.str ("https://queue.fal.run/fal-ai" ++
        ("/flux/requests/" ++ (requestId ++ "/status")))) ∧
    strEndsWith ("https://queue.fal.run/fal-ai" ++
        ("/flux/requests/" ++ (requestId ++ "/status")))
      ("/flux/requests/" ++ (requestId ++ "/status")) = true ∧
    jsonLookup (generateImmediateResult "fal-ai/flux/dev" input
        ⟨requestId, none, none, none⟩) "response_url" =
      some (Json.str ("https://queue.fal.run/fal-ai" ++
        ("/flux/requests/" ++ requestId))) ∧
    jsonLookup (generateImmediateResult "fal-ai/flux/dev" input
        ⟨requestId, none, none, none⟩) "cancel_url" =
      some (Json.str ("https://queue.fal.run/fal-ai" ++
        ("/flux/requests/" ++ (requestId ++ "/cancel")))) :=
  ⟨rfl, rfl, rfl, rfl, rfl, strEndsWith_append _ _, rfl, rfl⟩

/-- C9: in the merged record of a completed generate (resp. runWorkflow)
polling run, the client-side request id and model (resp. workflow id) always
win over any identically named fields of the remote result payload, and all
other fields of the payload are preserved. -/
theorem merge_client_fields_spec (payload : JsonObj)
    (requestId model workflowId : String) :
    jsonLookup (mergeGenerateResult payload requestId model) "request_id" =
      some (Json.str requestId) ∧
    jsonLookup (mergeGenerateResult payload requestId model) "model" =
      some (Json.str model) ∧
    jsonLookup (mergeWorkflowResult payload requestId workflowId) "request_id" =
      some (Json.str requestId) ∧
    jsonLookup (mergeWorkflowResult payload requestId workflowId) "workflow_id" =
      some (Json.str workflowId) ∧
    (∀ k, k ≠ "request_id" → k ≠ "model" →
      jsonLookup (mergeGenerateResult payload requestId model) k = jsonLookup payload k) ∧
    (∀ k, k ≠ "request_id" → k ≠ "workflow_id" →
      jsonLookup (mergeWorkflowResult payload requestId workflowId) k =
        jsonLookup payload k) := by
  simp only [mergeGenerateResult, mergeWorkflowResult, jsonLookup, jsonSet]
  refine ⟨?_, ?_, ?_, ?_, ?_, ?_⟩
  · rw [assocGet_assocSet_other _ _ _ _ (by decide), assocGet_assocSet_self]
  · exact assocGet_assocSet_self _ _ _
  · rw [assocGet_assocSet_other _ _ _ _ (by decide), assocGet_assocSet_self]
  · exact assocGet_assocSet_self _ _ _
  · intro k h1 h2
    rw [assocGet_assocSet_other _ _ _ _ h2, assocGet_assocSet_other _ _ _ _ h1]
  · intro k h1 h2
    rw [assocGet_assocSet_other _ _ _ _ h2, assocGet_assocSet_other _ _ _ _ h1]

/-- C9 witness: a remote payload that itself carries request_id and model
fields is overwritten by the client values, while its other fields survive. -/
theorem merge_client_fields_witness :
    jsonLookup (mergeGenerateResult
        [("request_id", Json.str "remote"), ("model", Json.str "remote-model"),
         ("output", Json.str "x")] "rid" "fal-ai/flux") "request_id" =
      some (Json.str "rid") ∧
    jsonLookup (mergeGenerateResult
        [("request_id", Json.str "remote"), ("model", Json.str "remote-model"),
         ("output", Json.str "x")] "rid" "fal-ai/flux") "model" =
      some (Json.str "fal-ai/flux") ∧
    jsonLookup (mergeGenerateResult
        [("request_id", Json.str "remote"), ("model", Json.str "remote-model"),
         ("output", Json.str "x")] "rid" "fal-ai/flux") "output" =
      some (Json.str "x") := by
  have h := merge_client_fields_spec
    [("request_id", Json.str "remote"), ("model", Json.str "remote-model"),
     ("output", Json.str "x")] "rid" "fal-ai/flux" "wid"
  exact ⟨h.1, h.2.1, (h.2.2.2.2.1 "output" (by decide) (by decide)).trans rfl⟩

/-- C10: for both generate and runWorkflow, a configured poll interval or
maximum wait time of 0 (or an absent value) is silently replaced by the
defaults of 5 and 600 seconds before conversion to milliseconds, and a
maximum wait time configured as 0 yields the full 10-minute deadline — the
first iteration still polls instead of timing out immediately. -/
theorem options_falsy_default_spec :
    pollIntervalMs none = 5000 ∧ pollIntervalMs (some 0) = 5000 ∧
    maxWaitTimeMs none = 600000 ∧ maxWaitTimeMs (some 0) = 600000 ∧
    (∀ n : Nat, n ≠ 0 →
      pollIntervalMs (some n) = n * 1000 ∧ maxWaitTimeMs (some n) = n * 1000) ∧
    (∀ requestId model responseUrl payload,
      (pollGenerate ⟨requestId, model, responseUrl, pollIntervalMs (some 0),
          maxWaitTimeMs (some 0), payload⟩ 0 [⟨"IN_QUEUE", none⟩]).2 = 1 ∧
      (pollWorkflow ⟨requestId, model, responseUrl, pollIntervalMs (some 0),
          maxWaitTimeMs (some 0), payload⟩ 0 [⟨"IN_QUEUE", none⟩]).2 = 1) := by
  refine ⟨rfl, rfl, rfl, rfl, ?_, ?_⟩
  · intro n hn
    simp [pollIntervalMs, maxWaitTimeMs, jsOrNat, hn]
  · intro requestId model responseUrl payload
    exact ⟨rfl, rfl⟩

/-- C10 witness: a maximum wait time of 0 becomes the 10-minute default and a
nonzero poll interval is scaled to milliseconds unchanged. -/
theorem options_falsy_default_witness :
    maxWaitTimeMs (some 0) = 600000 ∧ pollIntervalMs (some 7) = 7000 := by
  have h := options_falsy_default_spec
  exact ⟨h.2.2.2.1, (h.2.2.2.2.1 7 (by decide)).1⟩

/-- C7: getModelSchema answers from the cache — returning the stored
descriptor itself, with the cache untouched and zero fetches — exactly when an
entry exists whose age is strictly below the 10-minute TTL; otherwise (no
entry, or an entry at least 10 minutes old) it performs exactly one fetch and,
on success, returns the fetched descriptor and stores it under a fresh
timestamp. -/
theorem getModelSchema_cache_spec (cache : SchemaCache) (now : Nat)
    (modelId : String) (fetchOutcome : Option ParsedModelInfo) :
    (∀ e, cacheGet cache modelId = some e → now - e.timestamp < CACHE_TTL →
      getModelSchema cache now modelId fetchOutcome = (some e.data, cache, 0)) ∧
    ((cacheGet cache modelId = none ∨
        (∀ e, cacheGet cache modelId = some e → CACHE_TTL ≤ now - e.timestamp)) →
      (getModelSchema cache now modelId fetchOutcome).2.2 = 1 ∧
      (∀ info, fetchOutcome = some info →
        (getModelSchema cache now modelId fetchOutcome).1 = some info ∧
        cacheGet (getModelSchema cache now modelId fetchOutcome).2.1 modelId =
          some ⟨info, now⟩)) := by
  constructor
  · intro e he hfresh
    simp [getModelSchema, he, hfresh]
  · intro hmiss
    have hfetch :
        getModelSchema cache now modelId fetchOutcome =
          (match fetchOutcome with
            | none => (none, cache, 1)
            | some info => (some info, cacheSet cache modelId ⟨info, now⟩, 1)) := by
      rcases hmiss with hnone | hstale
      · simp [getModelSchema, hnone]
      · cases he : cacheGet cache modelId with
        | none => simp [getModelSchema, he]
        | some e =>
          have := hstale e he
          simp [getModelSchema, he, Nat.not_lt.mpr this]
    constructor
    · rw [hfetch]
      cases fetchOutcome <;> rfl
    · intro info hinfo
      subst hinfo
      rw [hfetch]
      exact ⟨rfl, assocGet_assocSet_self cache modelId ⟨info, now⟩⟩

/-- A minimal parsed descriptor used to exercise the cache. -/
def sampleInfo (m : String) : ParsedModelInfo := { model := m }

/-- C7 witness: a fresh entry (age below 10 minutes) is returned as stored
with no fetch, and a stale entry (age exactly 10 minutes) triggers one fetch
whose result is stored with the current timestamp. -/
theorem getModelSchema_cache_witness :
    getModelSchema [("fal-ai/flux", ⟨sampleInfo "fal-ai/flux", 0⟩)] 599999 "fal-ai/flux"
        (some (sampleInfo "fresh")) =
      (some (sampleInfo "fal-ai/flux"),
        [("fal-ai/flux", ⟨sampleInfo "fal-ai/flux", 0⟩)], 0) ∧
    (getModelSchema [("fal-ai/flux", ⟨sampleInfo "fal-ai/flux", 0⟩)] 600000 "fal-ai/flux"
        (some (sampleInfo "fresh"))).2.2 = 1 ∧
    (getModelSchema [("fal-ai/flux", ⟨sampleInfo "fal-ai/flux", 0⟩)] 600000 "fal-ai/flux"
        (some (sampleInfo "fresh"))).1 = some (sampleInfo "fresh") ∧
    cacheGet (getModelSchema [("fal-ai/flux", ⟨sampleInfo "fal-ai/flux", 0⟩)] 600000
        "fal-ai/flux" (some (sampleInfo "fresh"))).2.1 "fal-ai/flux" =
      some ⟨sampleInfo "fresh", 600000⟩ := by
  have hfresh := (getModelSchema_cache_spec
    [("fal-ai/flux", ⟨sampleInfo "fal-ai/flux", 0⟩)]
    599999 "fal-ai/flux" (some (sampleInfo "fresh"))).1 ⟨sampleInfo "fal-ai/flux", 0⟩
    rfl (by norm_num [CACHE_TTL])
  have hstale := (getModelSchema_cache_spec
    [("fal-ai/flux", ⟨sampleInfo "fal-ai/flux", 0⟩)]
    600000 "fal-ai/flux" (some (sampleInfo "fresh"))).2
    (Or.inr (by
      intro e he
      have he2 : e = ⟨sampleInfo "fal-ai/flux", 0⟩ := by
        simpa [cacheGet, assocGet] using he.symm
      subst he2
      norm_num [CACHE_TTL]))
  exact ⟨hfresh, hstale.1, (hstale.2 (sampleInfo "fresh") rfl).1,
    (hstale.2 (sampleInfo "fresh") rfl).2⟩

/-- C6: for a failure carrying transport details, the normalized message is
the first truthy string among the body's message, detail, error and title
fields (in that order) when the body is an object; the raw body when the body
is a (nonempty) string; and the original error's message when the body is
absent or falsy or yields no candidate; and the resulting payload carries the
numeric status code — in particular a body with detail "bad input" and status
422 normalizes to message "bad input" with statusCode 422. -/
theorem errorNormalization_spec :
    (∀ (m : Option String) (st : Option Nat) (fields : JsonObj) (c : String),
      firstMessageCandidate fields = some c →
      getHttpErrorDetails (some ⟨m, some ⟨st, some (Json.obj fields)⟩⟩) =
        some ⟨c, st, some (Json.obj fields)⟩) ∧
    (∀ (fields : JsonObj) (s : String),
      jsonLookup fields "message" = some (Json.str s) → s ≠ "" →
      firstMessageCandidate fields = some s) ∧
    (∀ (fields : JsonObj) (s : String),
      candidateField fields "message" = none →
      jsonLookup fields "detail" = some (Json.str s) → s ≠ "" →
      firstMessageCandidate fields = some s) ∧
    (∀ (fields : JsonObj) (s : String),
      candidateField fields "message" = none → candidateField fields "detail" = none →
      jsonLookup fields "error" = some (Json.str s) → s ≠ "" →
      firstMessageCandidate fields = some s) ∧
    (∀ (fields : JsonObj) (s : String),
      candidateField fields "message" = none → candidateField fields "detail" = none →
      candidateField fields "error" = none →
      jsonLookup fields "title" = some (Json.str s) → s ≠ "" →
      firstMessageCandidate fields = some s) ∧
    (∀ (m : Option String) (st : Option Nat) (fields : JsonObj),
      firstMessageCandidate fields = none →
      getHttpErrorDetails (some ⟨m, some ⟨st, some (Json.obj fields)⟩⟩) =
        some ⟨jsOrString m "Request failed", st, some (Json.obj fields)⟩) ∧
    (∀ (m : Option String) (st : Option Nat) (s : String), s ≠ "" →
      getHttpErrorDetails (some ⟨m, some ⟨st, some (Json.str s)⟩⟩) =
        some ⟨s, st, some (Json.str s)⟩) ∧
    (∀ (m : Option String) (st : Option Nat),
      getHttpErrorDetails (some ⟨m, some ⟨st, none⟩⟩) =
        some ⟨jsOrString m "Request failed", st, none⟩) ∧
    (∀ (msg : String) (st : Nat) (d : Option Json),
      jsonLookup (buildApiErrorPayload ⟨msg, some st, d⟩) "statusCode" =
        some (Json.int st) ∧
      jsonLookup (buildApiErrorPayload ⟨msg, some st, d⟩) "message" =
        some (Json.str msg)) ∧
    getHttpErrorDetails (some ⟨some "Request failed with status code 422",
        some ⟨some 422, some (Json.obj [("detail", Json.str "bad input")])⟩⟩) =
      some ⟨"bad input", some 422, some (Json.obj [("detail", Json.str "bad input")])⟩ ∧
    jsonLookup (buildApiErrorPayload ⟨"bad input", some 422,
        some (Json.obj [("detail", Json.str "bad input")])⟩) "statusCode" =
      some (Json.int 422) := by
  refine ⟨?_, ?_, ?_, ?_, ?_, ?_, ?_, ?_, ?_, rfl, rfl⟩
  · intro m st fields c hc
    simp [getHttpErrorDetails, jsTruthy, hc]
  · intro fields s hs hne
    have hc : candidateField fields "message" = some s := by
      simp [candidateField, hs, hne]
    simp [firstMessageCandidate, hc, Option.orElse]
  · intro fields s hm hs hne
    have hc : candidateField fields "detail" = some s := by
      simp [candidateField, hs, hne]
    simp [firstMessageCandidate, hm, hc, Option.orElse]
  · intro fields s hm hd hs hne
    have hc : candidateField fields "error" = some s := by
      simp [candidateField, hs, hne]
    simp [firstMessageCandidate, hm, hd, hc, Option.orElse]
  · intro fields s hm hd he hs hne
    have hc : candidateField fields "title" = some s := by
      simp [candidateField, hs, hne]
    simp [firstMessageCandidate, hm, hd, he, hc, Option.orElse]
  · intro m st fields hc
    simp [getHttpErrorDetails, jsTruthy, hc]
  · intro m st s hs
    simp [getHttpErrorDetails, jsTruthy, hs]
  · intro m st
    simp [getHttpErrorDetails]
  · intro msg st d
    cases d <;> simp [buildApiErrorPayload, jsonLookup, assocGet]

/-- C6 witness: the concrete 422 failure with body detail "bad input" yields
the normalized message "bad input" and a payload with statusCode 422. -/
theorem errorNormalization_witness :
    getHttpErrorDetails (some ⟨some "Request failed with status code 422",
        some ⟨some 422, some (Json.obj [("detail", Json.str "bad input")])⟩⟩) =
      some ⟨"bad input", some 422, some (Json.obj [("detail", Json.str "bad input")])⟩ ∧
    firstMessageCandidate [("detail", Json.str "bad input")] = some "bad input" := by
  have h := errorNormalization_spec
  refine ⟨h.2.2.2.2.2.2.2.2.2.1, ?_⟩
  exact h.2.2.1 [("detail", Json.str "bad input")] "bad input" rfl rfl (by decide)

/-- C8: a user-supplied parameter value is parsed as JSON exactly when its
trimmed form looks like an object, array, boolean literal or numeric literal,
and otherwise (including whenever the parse fails) is kept as the literal
string without raising: "42" becomes the number 42, "true" the boolean true,
"[1,2]" the array of 1 and 2, "hello" stays the string "hello", and the
malformed "\x7binvalid" stays the literal string. -/
theorem parseParamValue_spec :
    (∀ v : String, looksLikeJson (jsTrim v) = true →
      parseParamValue v = (jsonParse (jsTrim v)).getD (Json.str v)) ∧
    (∀ v : String, looksLikeJson (jsTrim v) = false →
      parseParamValue v = Json.str v) ∧
    parseParamValue "42" = Json.num 42 0 ∧
    parseParamValue "true" = Json.bool true ∧
    parseParamValue "[1,2]" = Json.arr [Json.num 1 0, Json.num 2 0] ∧
    parseParamValue "hello" = Json.str "hello" ∧
    parseParamValue "\x7binvalid" = Json.str "\x7binvalid" := by
  refine ⟨?_, ?_, rfl, rfl, rfl, rfl, rfl⟩
  · intro v h
    cases h2 : jsonParse (jsTrim v) <;> simp [parseParamValue, h, h2]
  · intro v h
    simp [parseParamValue, h]

/-- C8 witness: a numeric-looking value is parsed to a number, and a plain
word fails the sniff and stays a literal string. -/
theorem parseParamValue_witness :
    parseParamValue "42" = Json.num 42 0 ∧
    parseParamValue "hello" = Json.str "hello" ∧
    looksLikeJson (jsTrim "hello") = false := by
  have h := parseParamValue_spec
  exact ⟨h.2.2.1, h.2.1 "hello" rfl, rfl⟩

end FalAi
